import Mathlib

/-!
Verification of the drone-stm32-drv driver core: the Select3 race combinator
(src/select3.rs), the DMA channel completion fibers (src/dma/ch.rs), and the
I2C-over-DMA transaction orchestrator (src/i2c.rs).

Futures are shallowly embedded: a child future is a state `σ` together with a
step function `σ → Sum out σ` — `Sum.inl v` is `Poll::Ready(v)` (the future is
consumed into its output), `Sum.inr s` is `Poll::Pending` with the mutated
future handed back. Interrupt-driven fibers are embedded as one invocation
step over the status/clear register values they capture. Panics are embedded
as `Option.none`.
-/

namespace DroneStm32

/-- Mirror of `core::task::Poll`. -/
inductive Poll (α : Type) where
  | Ready (value : α)
  | Pending
deriving Repr, DecidableEq

/-- Mirror of `Output3` from src/select3.rs: the resolved child's output plus
the other two futures, returned to the caller un-consumed. -/
inductive Output3 (α β γ oa ob oc : Type) where
  | A (value : oa) (b : β) (c : γ)
  | B (a : α) (value : ob) (c : γ)
  | C (a : α) (b : β) (value : oc)
deriving Repr, DecidableEq

/-- Mirror of `Select3` from src/select3.rs: internal storage is
`Option<(A, B, C)>`, consumed on resolution. -/
structure Select3 (α β γ : Type) where
  storage : Option (α × β × γ)
deriving Repr, DecidableEq

/-- Mirror of `Select3::new`. -/
def Select3.new {α β γ : Type} (a : α) (b : β) (c : γ) : Select3 α β γ :=
  ⟨some (a, b, c)⟩

/-- Mirror of `<Select3 as Future>::poll` (src/select3.rs lines 43-59).
`stepA`/`stepB`/`stepC` are the child futures' poll functions; the result is
`none` exactly where the source panics ("cannot poll Select3 twice"), and
otherwise carries the `Poll` outcome together with the updated combinator. -/
def Select3.poll {α β γ oa ob oc : Type}
    (stepA : α → Sum oa α) (stepB : β → Sum ob β) (stepC : γ → Sum oc γ)
    (s : Select3 α β γ) :
    Option (Poll (Output3 α β γ oa ob oc) × Select3 α β γ) :=
  match s.storage with
  | none => none
  | some (a, b, c) =>
    match stepA a with
    | Sum.inl va => some (Poll.Ready (Output3.A va b c), ⟨none⟩)
    | Sum.inr a =>
      match stepB b with
      | Sum.inl vb => some (Poll.Ready (Output3.B a vb c), ⟨none⟩)
      | Sum.inr b =>
        match stepC c with
        | Sum.inl vc => some (Poll.Ready (Output3.C a b vc), ⟨none⟩)
        | Sum.inr c => some (Poll.Pending, ⟨some (a, b, c)⟩)

/-- Concrete child future on `Nat` state used to instantiate witnesses: ready
with output `r` when the state equals `k`, otherwise pending with the state
incremented. -/
def stepReadyAt (k r : Nat) : Nat → Sum Nat Nat :=
  fun n => if n = k then Sum.inl r else Sum.inr (n + 1)

/-- C1: a poll of an armed `Select3` polls the children in the fixed order A,
then B, then C; the first ready child's value is returned in the matching
`Output3` variant together with the other two futures exactly as they stand
(A ready leaves B and C un-polled; only the already-polled, still-pending
predecessors are mutated); if none is ready all three are stored back and the
poll is pending. Exactly one child is consumed per resolution. -/
theorem select3_poll_fixed_order {α β γ oa ob oc : Type}
    (stepA : α → Sum oa α) (stepB : β → Sum ob β) (stepC : γ → Sum oc γ)
    (a : α) (b : β) (c : γ) :
    (∀ va, stepA a = Sum.inl va →
      Select3.poll stepA stepB stepC ⟨some (a, b, c)⟩ =
        some (Poll.Ready (Output3.A va b c), ⟨none⟩)) ∧
    (∀ a' vb, stepA a = Sum.inr a' → stepB b = Sum.inl vb →
      Select3.poll stepA stepB stepC ⟨some (a, b, c)⟩ =
        some (Poll.Ready (Output3.B a' vb c), ⟨none⟩)) ∧
    (∀ a' b' vc, stepA a = Sum.inr a' → stepB b = Sum.inr b' →
        stepC c = Sum.inl vc →
      Select3.poll stepA stepB stepC ⟨some (a, b, c)⟩ =
        some (Poll.Ready (Output3.C a' b' vc), ⟨none⟩)) ∧
    (∀ a' b' c', stepA a = Sum.inr a' → stepB b = Sum.inr b' →
        stepC c = Sum.inr c' →
      Select3.poll stepA stepB stepC ⟨some (a, b, c)⟩ =
        some (Poll.Pending, ⟨some (a', b', c')⟩)) := by
  refine ⟨?_, ?_, ?_, ?_⟩
  · intro va h
    simp [Select3.poll, h]
  · intro a' vb hA hB
    simp [Select3.poll, hA, hB]
  · intro a' b' vc hA hB hC
    simp [Select3.poll, hA, hB, hC]
  · intro a' b' c' hA hB hC
    simp [Select3.poll, hA, hB, hC]

/-- Witness for C1: with A pending at state 1 and B ready with value 8, the
poll resolves to `Output3.B` carrying A's mutated state and C untouched. -/
theorem select3_poll_fixed_order_witness :
    Select3.poll (stepReadyAt 0 7) (stepReadyAt 1 8) (stepReadyAt 2 9)
        ⟨some (1, 1, 1)⟩ =
      some (Poll.Ready (Output3.B 2 8 1), ⟨none⟩) :=
  (select3_poll_fixed_order (stepReadyAt 0 7) (stepReadyAt 1 8)
    (stepReadyAt 2 9) 1 1 1).2.1 2 8 (by decide) (by decide)

/-- Polling an armed `Select3` never panics: the result is always `some`. -/
theorem select3_poll_armed_isSome {α β γ oa ob oc : Type}
    (stepA : α → Sum oa α) (stepB : β → Sum ob β) (stepC : γ → Sum oc γ)
    (t : α × β × γ) :
    (Select3.poll stepA stepB stepC ⟨some t⟩).isSome = true := by
  obtain ⟨a, b, c⟩ := t
  cases hA : stepA a with
  | inl va => simp [Select3.poll, hA]
  | inr a' =>
    cases hB : stepB b with
    | inl vb => simp [Select3.poll, hA, hB]
    | inr b' =>
      cases hC : stepC c with
      | inl vc => simp [Select3.poll, hA, hB, hC]
      | inr c' => simp [Select3.poll, hA, hB, hC]

/-- C2: polling a `Select3` whose storage is consumed panics (`none`); after
any `Ready` resolution the new storage is consumed, so the next poll panics;
after a `Pending` result the futures are stored back and the next poll does
not panic. -/
theorem select3_poll_after_resolution_panics {α β γ oa ob oc : Type}
    (stepA : α → Sum oa α) (stepB : β → Sum ob β) (stepC : γ → Sum oc γ) :
    Select3.poll stepA stepB stepC ⟨none⟩ = none ∧
    (∀ (s : Select3 α β γ) p s',
      Select3.poll stepA stepB stepC s = some (p, s') →
      (∀ v, p = Poll.Ready v →
        Select3.poll stepA stepB stepC s' = none) ∧
      (p = Poll.Pending →
        (Select3.poll stepA stepB stepC s').isSome = true)) := by
  refine ⟨rfl, ?_⟩
  intro s p s' h
  obtain ⟨st⟩ := s
  cases st with
  | none => simp [Select3.poll] at h
  | some t =>
    obtain ⟨a, b, c⟩ := t
    cases hA : stepA a with
    | inl va =>
      simp [Select3.poll, hA] at h
      refine ⟨fun v hv => ?_, fun hv => ?_⟩
      · rw [← h.2]; rfl
      · rw [← h.1] at hv; exact absurd hv (by simp)
    | inr a' =>
      cases hB : stepB b with
      | inl vb =>
        simp [Select3.poll, hA, hB] at h
        refine ⟨fun v hv => ?_, fun hv => ?_⟩
        · rw [← h.2]; rfl
        · rw [← h.1] at hv; exact absurd hv (by simp)
      | inr b' =>
        cases hC : stepC c with
        | inl vc =>
          simp [Select3.poll, hA, hB, hC] at h
          refine ⟨fun v hv => ?_, fun hv => ?_⟩
          · rw [← h.2]; rfl
          · rw [← h.1] at hv; exact absurd hv (by simp)
        | inr c' =>
          simp [Select3.poll, hA, hB, hC] at h
          refine ⟨fun v hv => ?_, fun _ => ?_⟩
          · rw [← h.1] at hv; exact absurd hv (by simp)
          · rw [← h.2]
            exact select3_poll_armed_isSome stepA stepB stepC _

/-- Witness for C2: after a concrete `Ready` resolution the re-poll panics,
and after a concrete `Pending` result the re-poll does not. -/
theorem select3_poll_after_resolution_panics_witness :
    (Select3.poll (stepReadyAt 0 7) (stepReadyAt 1 8) (stepReadyAt 2 9)
        (⟨none⟩ : Select3 Nat Nat Nat) = none) ∧
    (Select3.poll (stepReadyAt 9 7) (stepReadyAt 9 8) (stepReadyAt 9 9)
        (⟨some (1, 1, 1)⟩ : Select3 Nat Nat Nat)).isSome = true := by
  have h := (select3_poll_after_resolution_panics
      (stepReadyAt 9 7) (stepReadyAt 9 8) (stepReadyAt 9 9)).2
      ⟨some (0, 0, 0)⟩ Poll.Pending ⟨some (1, 1, 1)⟩ (by decide)
  exact ⟨(select3_poll_after_resolution_panics
      (stepReadyAt 0 7) (stepReadyAt 1 8) (stepReadyAt 2 9)).1,
    h.2 rfl⟩

/-- One invocation of a drone fiber: either it completes with a value or it
yields (stays pending until the interrupt fires again). Mirror of
`fib::FiberState` as used through `fib::Complete` / `fib::Yielded`. -/
inductive FiberState (α : Type) where
  | Complete (value : α)
  | Yielded
deriving Repr, DecidableEq

/-- Mirror of `DmaTransferError` (src/dma/ch.rs). -/
inductive DmaTransferError where
  | mk
deriving Repr, DecidableEq

/-- The DMA channel status flags read by the completion fibers
(src/dma/ch.rs): transfer error, half transfer, transfer complete. -/
structure DmaIsrVal where
  teif : Bool
  htif : Bool
  tcif : Bool
deriving Repr, DecidableEq

/-- The DMA channel interrupt-flag-clear bits written by the completion
fibers (src/dma/ch.rs): clear-global, clear-half-transfer,
clear-transfer-complete. -/
structure DmaIfcrVal where
  cgif : Bool
  chtif : Bool
  ctcif : Bool
deriving Repr, DecidableEq

/-- One invocation of the fiber built by `DmaChEn::transfer_complete`
(src/dma/ch.rs lines 177-193): reads the captured status flags, writes clear
flags, and either completes or yields. -/
def DmaChEn.transfer_complete (isr : DmaIsrVal) (ifcr : DmaIfcrVal) :
    DmaIfcrVal × FiberState (Except DmaTransferError Unit) :=
  if isr.teif then
    ({ ifcr with cgif := true },
      FiberState.Complete (Except.error DmaTransferError.mk))
  else if isr.tcif then
    ({ ifcr with ctcif := true }, FiberState.Complete (Except.ok ()))
  else
    (ifcr, FiberState.Yielded)

/-- One invocation of the fiber built by `DmaChEn::half_transfer`
(src/dma/ch.rs lines 196-212). -/
def DmaChEn.half_transfer (isr : DmaIsrVal) (ifcr : DmaIfcrVal) :
    DmaIfcrVal × FiberState (Except DmaTransferError Unit) :=
  if isr.teif then
    ({ ifcr with cgif := true },
      FiberState.Complete (Except.error DmaTransferError.mk))
  else if isr.htif then
    ({ ifcr with chtif := true }, FiberState.Complete (Except.ok ()))
  else
    (ifcr, FiberState.Yielded)

/-- C3: in both DMA completion fibers, a set transfer-error flag (TEIF) sets
the clear-global flag (CGIF) and completes with an error — taking priority
over the event flag; otherwise a set event flag (TCIF / HTIF) sets only its
own clear flag (CTCIF / CHTIF) and completes with success; otherwise the
fiber yields. -/
theorem dma_fiber_error_priority (isr : DmaIsrVal) (ifcr : DmaIfcrVal) :
    (isr.teif = true →
      DmaChEn.transfer_complete isr ifcr =
        ({ ifcr with cgif := true },
          FiberState.Complete (Except.error DmaTransferError.mk)) ∧
      DmaChEn.half_transfer isr ifcr =
        ({ ifcr with cgif := true },
          FiberState.Complete (Except.error DmaTransferError.mk))) ∧
    (isr.teif = false → isr.tcif = true →
      DmaChEn.transfer_complete isr ifcr =
        ({ ifcr with ctcif := true }, FiberState.Complete (Except.ok ()))) ∧
    (isr.teif = false → isr.htif = true →
      DmaChEn.half_transfer isr ifcr =
        ({ ifcr with chtif := true }, FiberState.Complete (Except.ok ()))) ∧
    (isr.teif = false → isr.tcif = false →
      DmaChEn.transfer_complete isr ifcr = (ifcr, FiberState.Yielded)) ∧
    (isr.teif = false → isr.htif = false →
      DmaChEn.half_transfer isr ifcr = (ifcr, FiberState.Yielded)) := by
  refine ⟨fun hte => ?_, fun hte htc => ?_, fun hte hht => ?_,
    fun hte htc => ?_, fun hte hht => ?_⟩
  · exact ⟨by simp [DmaChEn.transfer_complete, hte],
      by simp [DmaChEn.half_transfer, hte]⟩
  · simp [DmaChEn.transfer_complete, hte, htc]
  · simp [DmaChEn.half_transfer, hte, hht]
  · simp [DmaChEn.transfer_complete, hte, htc]
  · simp [DmaChEn.half_transfer, hte, hht]

/-- Witness for C3: with the error flag and both event flags simultaneously
set, both fibers report the error and set only CGIF. -/
theorem dma_fiber_error_priority_witness :
    DmaChEn.transfer_complete ⟨true, true, true⟩ ⟨false, false, false⟩ =
      (⟨true, false, false⟩,
        FiberState.Complete (Except.error DmaTransferError.mk)) ∧
    DmaChEn.half_transfer ⟨true, true, true⟩ ⟨false, false, false⟩ =
      (⟨true, false, false⟩,
        FiberState.Complete (Except.error DmaTransferError.mk)) :=
  (dma_fiber_error_priority ⟨true, true, true⟩ ⟨false, false, false⟩).1 rfl

/-- Mirror of `I2CError` (src/i2c.rs). -/
inductive I2CError where
  | Berr
  | Ovr
  | Arlo
  | Timeout
  | Alert
  | Pecerr
deriving Repr, DecidableEq

/-- Mirror of `I2CBreak` (src/i2c.rs). -/
inductive I2CBreak where
  | Nack
  | Stop
deriving Repr, DecidableEq

/-- The I2C status-register flags read by the detector fibers
(src/i2c.rs). -/
structure I2CIsrVal where
  berr : Bool
  ovr : Bool
  arlo : Bool
  timeout : Bool
  alert : Bool
  pecerr : Bool
  nackf : Bool
  stopf : Bool
deriving Repr, DecidableEq

/-- The I2C interrupt-clear-register flags written by the detector fibers
(src/i2c.rs). -/
structure I2CIcrVal where
  berrcf : Bool
  ovrcf : Bool
  arlocf : Bool
  timoutcf : Bool
  alertcf : Bool
  peccf : Bool
  nackcf : Bool
  stopcf : Bool
deriving Repr, DecidableEq

/-- One invocation of the fiber built by `I2CEn::transfer_error`
(src/i2c.rs lines 231-267): checks the six error flags in the fixed order
bus-error, overrun, arbitration-lost, timeout, alert, PEC-error; on the first
set flag it sets that flag's own clear bit and completes with the matching
variant, otherwise it yields. -/
def I2CEn.transfer_error (isr : I2CIsrVal) (icr : I2CIcrVal) :
    I2CIcrVal × FiberState I2CError :=
  if isr.berr then
    ({ icr with berrcf := true }, FiberState.Complete I2CError.Berr)
  else if isr.ovr then
    ({ icr with ovrcf := true }, FiberState.Complete I2CError.Ovr)
  else if isr.arlo then
    ({ icr with arlocf := true }, FiberState.Complete I2CError.Arlo)
  else if isr.timeout then
    ({ icr with timoutcf := true }, FiberState.Complete I2CError.Timeout)
  else if isr.alert then
    ({ icr with alertcf := true }, FiberState.Complete I2CError.Alert)
  else if isr.pecerr then
    ({ icr with peccf := true }, FiberState.Complete I2CError.Pecerr)
  else
    (icr, FiberState.Yielded)

/-- One invocation of the fiber built by `I2CEn::transfer_break`
(src/i2c.rs lines 270-286): NACK reception is checked before STOP
reception; the matched flag's clear bit is set and the fiber completes with
the matching variant, otherwise it yields. -/
def I2CEn.transfer_break (isr : I2CIsrVal) (icr : I2CIcrVal) :
    I2CIcrVal × FiberState I2CBreak :=
  if isr.nackf then
    ({ icr with nackcf := true }, FiberState.Complete I2CBreak.Nack)
  else if isr.stopf then
    ({ icr with stopcf := true }, FiberState.Complete I2CBreak.Stop)
  else
    (icr, FiberState.Yielded)

/-- C4: the error fiber reports the first set flag in the fixed priority
order bus-error > overrun > arbitration-lost > timeout > SMBus-alert >
PEC-error, and sets only the clear flag corresponding to the reported
variant (the returned clear register differs from the input in exactly that
bit); if no error flag is set it yields. -/
theorem i2c_transfer_error_priority (isr : I2CIsrVal) (icr : I2CIcrVal) :
    (isr.berr = true →
      I2CEn.transfer_error isr icr =
        ({ icr with berrcf := true }, FiberState.Complete I2CError.Berr)) ∧
    (isr.berr = false → isr.ovr = true →
      I2CEn.transfer_error isr icr =
        ({ icr with ovrcf := true }, FiberState.Complete I2CError.Ovr)) ∧
    (isr.berr = false → isr.ovr = false → isr.arlo = true →
      I2CEn.transfer_error isr icr =
        ({ icr with arlocf := true }, FiberState.Complete I2CError.Arlo)) ∧
    (isr.berr = false → isr.ovr = false → isr.arlo = false →
        isr.timeout = true →
      I2CEn.transfer_error isr icr =
        ({ icr with timoutcf := true },
          FiberState.Complete I2CError.Timeout)) ∧
    (isr.berr = false → isr.ovr = false → isr.arlo = false →
        isr.timeout = false → isr.alert = true →
      I2CEn.transfer_error isr icr =
        ({ icr with alertcf := true }, FiberState.Complete I2CError.Alert)) ∧
    (isr.berr = false → isr.ovr = false → isr.arlo = false →
        isr.timeout = false → isr.alert = false → isr.pecerr = true →
      I2CEn.transfer_error isr icr =
        ({ icr with peccf := true }, FiberState.Complete I2CError.Pecerr)) ∧
    (isr.berr = false → isr.ovr = false → isr.arlo = false →
        isr.timeout = false → isr.alert = false → isr.pecerr = false →
      I2CEn.transfer_error isr icr = (icr, FiberState.Yielded)) := by
  refine ⟨fun h1 => ?_, fun h1 h2 => ?_, fun h1 h2 h3 => ?_,
    fun h1 h2 h3 h4 => ?_, fun h1 h2 h3 h4 h5 => ?_,
    fun h1 h2 h3 h4 h5 h6 => ?_, fun h1 h2 h3 h4 h5 h6 => ?_⟩ <;>
    simp [I2CEn.transfer_error, h1, *]

/-- Witness for C4: with the bus-error flag and the overrun flag both set,
the fiber reports bus-error and sets only the bus-error clear flag; the
overrun clear flag stays untouched. -/
theorem i2c_transfer_error_priority_witness :
    I2CEn.transfer_error
        ⟨true, true, false, false, false, false, false, false⟩
        ⟨false, false, false, false, false, false, false, false⟩ =
      (⟨true, false, false, false, false, false, false, false⟩,
        FiberState.Complete I2CError.Berr) :=
  (i2c_transfer_error_priority
    ⟨true, true, false, false, false, false, false, false⟩
    ⟨false, false, false, false, false, false, false, false⟩).1 rfl

/-- C9: when the NACK flag and the STOP flag are both set in the same
invocation of the break fiber, it resolves with `Nack`, sets only the NACK
clear flag, and leaves the STOP clear flag (and hence the still-set STOP
status flag, which the fiber never writes) untouched. -/
theorem i2c_transfer_break_nack_priority (isr : I2CIsrVal) (icr : I2CIcrVal)
    (hn : isr.nackf = true) (hs : isr.stopf = true) :
    I2CEn.transfer_break isr icr =
      ({ icr with nackcf := true }, FiberState.Complete I2CBreak.Nack) ∧
    (I2CEn.transfer_break isr icr).1.stopcf = icr.stopcf := by
  constructor
  · simp [I2CEn.transfer_break, hn]
  · simp [I2CEn.transfer_break, hn]

/-- Witness for C9: a concrete invocation with NACK and STOP both set. -/
theorem i2c_transfer_break_nack_priority_witness :
    I2CEn.transfer_break
        ⟨false, false, false, false, false, false, true, true⟩
        ⟨false, false, false, false, false, false, false, false⟩ =
      (⟨false, false, false, false, false, false, true, false⟩,
        FiberState.Complete I2CBreak.Nack) :=
  (i2c_transfer_break_nack_priority
    ⟨false, false, false, false, false, false, true, true⟩
    ⟨false, false, false, false, false, false, false, false⟩ rfl rfl).1

/-- DMA channel control register value (fields touched by
`init_dma_rx_ccr` / `init_dma_tx_ccr` in src/i2c.rs); `rest` stands for the
remaining bits carried over from `default_val()`. -/
structure DmaCcrVal where
  mem2mem : Bool
  msize : Nat
  psize : Nat
  minc : Bool
  pinc : Bool
  circ : Bool
  dir : Bool
  teie : Bool
  htie : Bool
  tcie : Bool
  en : Bool
  rest : Nat
deriving Repr, DecidableEq

/-- Mirror of `I2CEn::init_dma_rx_ccr` (src/i2c.rs lines 447-461): the
disabled baseline for the RX DMA channel, built from the default value. -/
def I2CEn.init_dma_rx_ccr (d : DmaCcrVal) : DmaCcrVal :=
  { d with
    mem2mem := false
    msize := 0
    psize := 0
    minc := true
    pinc := false
    circ := false
    dir := false
    teie := true
    htie := false
    tcie := true
    en := false }

/-- Mirror of `I2CEn::init_dma_tx_ccr` (src/i2c.rs lines 463-477): as the RX
baseline but with the direction bit set (memory-to-peripheral). -/
def I2CEn.init_dma_tx_ccr (d : DmaCcrVal) : DmaCcrVal :=
  { d with
    mem2mem := false
    msize := 0
    psize := 0
    minc := true
    pinc := false
    circ := false
    dir := true
    teie := true
    htie := false
    tcie := true
    en := false }

/-- I2C control register 1 value (fields touched by the orchestrator);
`rest` stands for the caller-provided remaining bits. -/
structure I2CCr1Val where
  pe : Bool
  errie : Bool
  nackie : Bool
  rxdmaen : Bool
  txdmaen : Bool
  rest : Nat
deriving Repr, DecidableEq

/-- I2C control register 2 value (fields touched by `set_i2c_cr2`); `rest`
stands for the caller-provided remaining bits. -/
structure I2CCr2Val where
  add10 : Bool
  sadd : Nat
  rd_wrn : Bool
  nbytes : Nat
  autoend : Bool
  start : Bool
  rest : Nat
deriving Repr, DecidableEq

/-- Mirror of `I2CEn::set_i2c_cr2` (src/i2c.rs lines 422-445). `slave_addr`
is the u8 argument (so a value below 256); the source computes
`u32::from(slave_addr << 1)` — a u8 shift, hence the `% 256` — and casts
`nbytes as u32`. -/
def I2CEn.set_i2c_cr2 (val : I2CCr2Val) (slave_addr : Nat) (autoend : Bool)
    (nbytes : Nat) (write : Bool) : I2CCr2Val :=
  { val with
    add10 := false
    sadd := slave_addr * 2 % 256
    rd_wrn := if write then false else true
    nbytes := nbytes % 2 ^ 32
    autoend := autoend
    start := true }

/-- The interrupt lines the orchestrator can re-trigger: the peripheral's
event line, its error line, and the DMA channel's own line. -/
inductive IntLine where
  | ev
  | er
  | dmaInt
deriving Repr, DecidableEq

/-- Which of the three raced futures resolved first, and how — the outcome
of `Select3::new(dma_complete, i2c_break, i2c_error).await` in the
orchestrator. -/
inductive Race3Outcome where
  | dmaOk
  | dmaErr
  | brk (b : I2CBreak)
  | err (e : I2CError)
deriving Repr, DecidableEq

/-- Mirror of `I2CDmaError` (src/i2c.rs). -/
inductive I2CDmaError where
  | Dma (e : DmaTransferError)
  | I2CBreak (e : I2CBreak)
  | I2CError (e : I2CError)
deriving Repr, DecidableEq

/-- The registers and interrupt-trigger trace observed by one orchestrated
I2C-over-DMA transaction: DMA memory address and transfer count, DMA channel
control register, I2C CR1 and CR2 snapshots, and the ordered list of
`trigger()` calls issued. -/
structure I2CDmaMachine where
  dma_maddr : Nat
  dma_size : Nat
  dma_ccr : DmaCcrVal
  i2c_cr1 : I2CCr1Val
  i2c_cr2 : I2CCr2Val
  triggers : List IntLine
deriving Repr, DecidableEq

/-- Mirror of `I2CEn::read_impl` (src/i2c.rs lines 288-353) at the level of
its register writes and interrupt triggers. The await of the three-way race
is abstracted by `outcome`; `none` is the panic on a buffer longer than 255
bytes, raised before any register write. -/
def I2CEn.read_impl (st : I2CDmaMachine) (bufPtr bufLen slave_addr : Nat)
    (i2c_cr1_val : I2CCr1Val) (i2c_cr2_val : I2CCr2Val) (autoend : Bool)
    (dmaDefault : DmaCcrVal) (outcome : Race3Outcome) :
    Option (I2CDmaMachine × Except I2CDmaError Unit) :=
  if bufLen > 255 then none
  else
    let armed : I2CDmaMachine :=
      { st with
        dma_maddr := bufPtr
        dma_size := bufLen
        dma_ccr := { I2CEn.init_dma_rx_ccr dmaDefault with en := true }
        i2c_cr1 :=
          { i2c_cr1_val with
            pe := true
            errie := true
            nackie := true
            rxdmaen := true }
        i2c_cr2 :=
          I2CEn.set_i2c_cr2 i2c_cr2_val slave_addr autoend bufLen false }
    match outcome with
    | Race3Outcome.dmaOk =>
      some ({ armed with
          dma_ccr := I2CEn.init_dma_rx_ccr dmaDefault
          triggers := armed.triggers ++ [IntLine.ev, IntLine.er] },
        Except.ok ())
    | Race3Outcome.dmaErr =>
      some ({ armed with
          dma_ccr := I2CEn.init_dma_rx_ccr dmaDefault
          triggers := armed.triggers ++ [IntLine.ev, IntLine.er] },
        Except.error (I2CDmaError.Dma DmaTransferError.mk))
    | Race3Outcome.brk b =>
      some ({ armed with
          dma_ccr := I2CEn.init_dma_rx_ccr dmaDefault
          triggers := armed.triggers ++ [IntLine.dmaInt, IntLine.er] },
        Except.error (I2CDmaError.I2CBreak b))
    | Race3Outcome.err e =>
      some ({ armed with
          dma_ccr := I2CEn.init_dma_rx_ccr dmaDefault
          triggers := armed.triggers ++ [IntLine.dmaInt, IntLine.ev] },
        Except.error (I2CDmaError.I2CError e))

/-- Mirror of `I2CEn::write_impl` (src/i2c.rs lines 355-420): as
`read_impl` but arming the TX DMA baseline, enabling TX-DMA requests on CR1,
and programming CR2 in the write direction. -/
def I2CEn.write_impl (st : I2CDmaMachine) (bufPtr bufLen slave_addr : Nat)
    (i2c_cr1_val : I2CCr1Val) (i2c_cr2_val : I2CCr2Val) (autoend : Bool)
    (dmaDefault : DmaCcrVal) (outcome : Race3Outcome) :
    Option (I2CDmaMachine × Except I2CDmaError Unit) :=
  if bufLen > 255 then none
  else
    let armed : I2CDmaMachine :=
      { st with
        dma_maddr := bufPtr
        dma_size := bufLen
        dma_ccr := { I2CEn.init_dma_tx_ccr dmaDefault with en := true }
        i2c_cr1 :=
          { i2c_cr1_val with
            pe := true
            errie := true
            nackie := true
            txdmaen := true }
        i2c_cr2 :=
          I2CEn.set_i2c_cr2 i2c_cr2_val slave_addr autoend bufLen true }
    match outcome with
    | Race3Outcome.dmaOk =>
      some ({ armed with
          dma_ccr := I2CEn.init_dma_tx_ccr dmaDefault
          triggers := armed.triggers ++ [IntLine.ev, IntLine.er] },
        Except.ok ())
    | Race3Outcome.dmaErr =>
      some ({ armed with
          dma_ccr := I2CEn.init_dma_tx_ccr dmaDefault
          triggers := armed.triggers ++ [IntLine.ev, IntLine.er] },
        Except.error (I2CDmaError.Dma DmaTransferError.mk))
    | Race3Outcome.brk b =>
      some ({ armed with
          dma_ccr := I2CEn.init_dma_tx_ccr dmaDefault
          triggers := armed.triggers ++ [IntLine.dmaInt, IntLine.er] },
        Except.error (I2CDmaError.I2CBreak b))
    | Race3Outcome.err e =>
      some ({ armed with
          dma_ccr := I2CEn.init_dma_tx_ccr dmaDefault
          triggers := armed.triggers ++ [IntLine.dmaInt, IntLine.ev] },
        Except.error (I2CDmaError.I2CError e))

/-- Mirror of `I2CEn::read` (src/i2c.rs lines 171-180): leave-open, so
`autoend = false`. -/
def I2CEn.read (st : I2CDmaMachine) (bufPtr bufLen slave_addr : Nat)
    (cr1v : I2CCr1Val) (cr2v : I2CCr2Val) (dmaDefault : DmaCcrVal)
    (outcome : Race3Outcome) :
    Option (I2CDmaMachine × Except I2CDmaError Unit) :=
  I2CEn.read_impl st bufPtr bufLen slave_addr cr1v cr2v false dmaDefault
    outcome

/-- Mirror of `I2CEn::read_and_stop` (src/i2c.rs lines 187-196):
`autoend = true`. -/
def I2CEn.read_and_stop (st : I2CDmaMachine) (bufPtr bufLen slave_addr : Nat)
    (cr1v : I2CCr1Val) (cr2v : I2CCr2Val) (dmaDefault : DmaCcrVal)
    (outcome : Race3Outcome) :
    Option (I2CDmaMachine × Except I2CDmaError Unit) :=
  I2CEn.read_impl st bufPtr bufLen slave_addr cr1v cr2v true dmaDefault
    outcome

/-- Mirror of `I2CEn::write` (src/i2c.rs lines 203-212):
`autoend = false`. -/
def I2CEn.write (st : I2CDmaMachine) (bufPtr bufLen slave_addr : Nat)
    (cr1v : I2CCr1Val) (cr2v : I2CCr2Val) (dmaDefault : DmaCcrVal)
    (outcome : Race3Outcome) :
    Option (I2CDmaMachine × Except I2CDmaError Unit) :=
  I2CEn.write_impl st bufPtr bufLen slave_addr cr1v cr2v false dmaDefault
    outcome

/-- Mirror of `I2CEn::write_and_stop` (src/i2c.rs lines 219-228):
`autoend = true`. -/
def I2CEn.write_and_stop (st : I2CDmaMachine)
    (bufPtr bufLen slave_addr : Nat) (cr1v : I2CCr1Val) (cr2v : I2CCr2Val)
    (dmaDefault : DmaCcrVal) (outcome : Race3Outcome) :
    Option (I2CDmaMachine × Except I2CDmaError Unit) :=
  I2CEn.write_impl st bufPtr bufLen slave_addr cr1v cr2v true dmaDefault
    outcome

/-- Modelled from the spec: the two interrupt lines each of the four race
branches is said to re-trigger — exactly the two lines whose futures were
dropped unresolved. Compared against `read_impl` / `write_impl` in C6. -/
def retriggeredLines : Race3Outcome → List IntLine
  | Race3Outcome.dmaOk => [IntLine.ev, IntLine.er]
  | Race3Outcome.dmaErr => [IntLine.ev, IntLine.er]
  | Race3Outcome.brk _ => [IntLine.dmaInt, IntLine.er]
  | Race3Outcome.err _ => [IntLine.dmaInt, IntLine.ev]

/-- C5: in every one of the four outcome branches, `read_impl` and
`write_impl` end with the DMA channel control register stored back to the
disabled baseline: enable clear, transfer-error and transfer-complete
interrupt enables set, half-transfer interrupt enable clear. -/
theorem i2c_cleanup_baseline (st : I2CDmaMachine)
    (bufPtr bufLen slave_addr : Nat) (cr1v : I2CCr1Val) (cr2v : I2CCr2Val)
    (autoend : Bool) (d : DmaCcrVal) (outcome : Race3Outcome)
    (st' : I2CDmaMachine) (r : Except I2CDmaError Unit) :
    (I2CEn.read_impl st bufPtr bufLen slave_addr cr1v cr2v autoend d
        outcome = some (st', r) →
      st'.dma_ccr = I2CEn.init_dma_rx_ccr d ∧ st'.dma_ccr.en = false ∧
        st'.dma_ccr.teie = true ∧ st'.dma_ccr.tcie = true ∧
        st'.dma_ccr.htie = false) ∧
    (I2CEn.write_impl st bufPtr bufLen slave_addr cr1v cr2v autoend d
        outcome = some (st', r) →
      st'.dma_ccr = I2CEn.init_dma_tx_ccr d ∧ st'.dma_ccr.en = false ∧
        st'.dma_ccr.teie = true ∧ st'.dma_ccr.tcie = true ∧
        st'.dma_ccr.htie = false) := by
  by_cases hlen : bufLen > 255
  · refine ⟨fun h => ?_, fun h => ?_⟩ <;>
      simp [I2CEn.read_impl, I2CEn.write_impl, hlen] at h
  · refine ⟨fun h => ?_, fun h => ?_⟩
    · rw [I2CEn.read_impl, if_neg hlen] at h
      cases outcome <;>
        (simp only [Option.some.injEq, Prod.mk.injEq] at h
         rw [← h.1]
         exact ⟨rfl, rfl, rfl, rfl, rfl⟩)
    · rw [I2CEn.write_impl, if_neg hlen] at h
      cases outcome <;>
        (simp only [Option.some.injEq, Prod.mk.injEq] at h
         rw [← h.1]
         exact ⟨rfl, rfl, rfl, rfl, rfl⟩)

/-- A concrete default DMA control register value used in witnesses, with
every field away from the baseline. -/
def sampleCcr : DmaCcrVal :=
  { mem2mem := true, msize := 1, psize := 2, minc := false, pinc := true,
    circ := true, dir := true, teie := false, htie := true, tcie := false,
    en := true, rest := 5 }

/-- A concrete caller-provided CR1 overlay used in witnesses. -/
def sampleCr1 : I2CCr1Val :=
  { pe := false, errie := false, nackie := false, rxdmaen := false,
    txdmaen := false, rest := 7 }

/-- A concrete caller-provided CR2 overlay used in witnesses. -/
def sampleCr2 : I2CCr2Val :=
  { add10 := true, sadd := 3, rd_wrn := false, nbytes := 9,
    autoend := false, start := false, rest := 11 }

/-- A concrete pre-transaction machine state used in witnesses. -/
def sampleMachine : I2CDmaMachine :=
  { dma_maddr := 0, dma_size := 0, dma_ccr := sampleCcr,
    i2c_cr1 := sampleCr1, i2c_cr2 := sampleCr2, triggers := [] }

/-- The machine state after a concrete 4-byte read-and-stop from slave 80
that resolved in the break branch. -/
def sampleAfterRxBreak : I2CDmaMachine :=
  { sampleMachine with
    dma_maddr := 16
    dma_size := 4
    dma_ccr := I2CEn.init_dma_rx_ccr sampleCcr
    i2c_cr1 :=
      { sampleCr1 with
        pe := true, errie := true, nackie := true, rxdmaen := true }
    i2c_cr2 := I2CEn.set_i2c_cr2 sampleCr2 80 true 4 false
    triggers := [IntLine.dmaInt, IntLine.er] }

/-- Witness for C5: the concrete read transaction resolving in the break
branch leaves the DMA control register at the RX disabled baseline. -/
theorem i2c_cleanup_baseline_witness :
    sampleAfterRxBreak.dma_ccr = I2CEn.init_dma_rx_ccr sampleCcr ∧
    sampleAfterRxBreak.dma_ccr.en = false ∧
    sampleAfterRxBreak.dma_ccr.teie = true ∧
    sampleAfterRxBreak.dma_ccr.tcie = true ∧
    sampleAfterRxBreak.dma_ccr.htie = false :=
  (i2c_cleanup_baseline sampleMachine 16 4 80 sampleCr1 sampleCr2 true
    sampleCcr (Race3Outcome.brk I2CBreak.Nack) sampleAfterRxBreak
    (Except.error (I2CDmaError.I2CBreak I2CBreak.Nack))).1 rfl

/-- C6: in every branch of `read_impl` and `write_impl`, exactly the two
interrupt lines whose futures were dropped unresolved are re-triggered, in
order: event then error on DMA resolution (success or DMA error), DMA
channel then error on break resolution, DMA channel then event on error
resolution. -/
theorem i2c_retrigger_dropped_lines (st : I2CDmaMachine)
    (bufPtr bufLen slave_addr : Nat) (cr1v : I2CCr1Val) (cr2v : I2CCr2Val)
    (autoend : Bool) (d : DmaCcrVal) (outcome : Race3Outcome)
    (st' : I2CDmaMachine) (r : Except I2CDmaError Unit) :
    (I2CEn.read_impl st bufPtr bufLen slave_addr cr1v cr2v autoend d
        outcome = some (st', r) →
      st'.triggers = st.triggers ++ retriggeredLines outcome) ∧
    (I2CEn.write_impl st bufPtr bufLen slave_addr cr1v cr2v autoend d
        outcome = some (st', r) →
      st'.triggers = st.triggers ++ retriggeredLines outcome) := by
  by_cases hlen : bufLen > 255
  · refine ⟨fun h => ?_, fun h => ?_⟩ <;>
      simp [I2CEn.read_impl, I2CEn.write_impl, hlen] at h
  · refine ⟨fun h => ?_, fun h => ?_⟩
    · rw [I2CEn.read_impl, if_neg hlen] at h
      cases outcome <;>
        (simp only [Option.some.injEq, Prod.mk.injEq] at h
         rw [← h.1]
         rfl)
    · rw [I2CEn.write_impl, if_neg hlen] at h
      cases outcome <;>
        (simp only [Option.some.injEq, Prod.mk.injEq] at h
         rw [← h.1]
         rfl)

/-- The machine state after a concrete 4-byte write from slave 32 that
resolved in the error branch. -/
def sampleAfterTxError : I2CDmaMachine :=
  { sampleMachine with
    dma_maddr := 16
    dma_size := 4
    dma_ccr := I2CEn.init_dma_tx_ccr sampleCcr
    i2c_cr1 :=
      { sampleCr1 with
        pe := true, errie := true, nackie := true, txdmaen := true }
    i2c_cr2 := I2CEn.set_i2c_cr2 sampleCr2 32 false 4 true
    triggers := [IntLine.dmaInt, IntLine.ev] }

/-- Witness for C6: the concrete write transaction resolving in the error
branch triggers the DMA channel line and the event line. -/
theorem i2c_retrigger_dropped_lines_witness :
    sampleAfterTxError.triggers =
      sampleMachine.triggers ++
        retriggeredLines (Race3Outcome.err I2CError.Ovr) :=
  (i2c_retrigger_dropped_lines sampleMachine 16 4 32 sampleCr1 sampleCr2
    false sampleCcr (Race3Outcome.err I2CError.Ovr) sampleAfterTxError
    (Except.error (I2CDmaError.I2CError I2CError.Ovr))).2 rfl

/-- C7: each of the four public entry points accepts a buffer of length
exactly 255 (and any shorter one) — the call does not panic — while any
buffer longer than 255 bytes panics on the length check, before any
register is written (the model produces no post-state at all). -/
theorem i2c_len_boundary (st : I2CDmaMachine)
    (bufPtr bufLen slave_addr : Nat) (cr1v : I2CCr1Val) (cr2v : I2CCr2Val)
    (d : DmaCcrVal) (outcome : Race3Outcome) :
    (bufLen ≤ 255 →
      (I2CEn.read st bufPtr bufLen slave_addr cr1v cr2v d
          outcome).isSome = true ∧
      (I2CEn.read_and_stop st bufPtr bufLen slave_addr cr1v cr2v d
          outcome).isSome = true ∧
      (I2CEn.write st bufPtr bufLen slave_addr cr1v cr2v d
          outcome).isSome = true ∧
      (I2CEn.write_and_stop st bufPtr bufLen slave_addr cr1v cr2v d
          outcome).isSome = true) ∧
    (255 < bufLen →
      I2CEn.read st bufPtr bufLen slave_addr cr1v cr2v d outcome = none ∧
      I2CEn.read_and_stop st bufPtr bufLen slave_addr cr1v cr2v d
          outcome = none ∧
      I2CEn.write st bufPtr bufLen slave_addr cr1v cr2v d outcome = none ∧
      I2CEn.write_and_stop st bufPtr bufLen slave_addr cr1v cr2v d
          outcome = none) := by
  constructor
  · intro hle
    have hlen : ¬ bufLen > 255 := Nat.not_lt.2 hle
    refine ⟨?_, ?_, ?_, ?_⟩
    · unfold I2CEn.read I2CEn.read_impl
      rw [if_neg hlen]
      cases outcome <;> rfl
    · unfold I2CEn.read_and_stop I2CEn.read_impl
      rw [if_neg hlen]
      cases outcome <;> rfl
    · unfold I2CEn.write I2CEn.write_impl
      rw [if_neg hlen]
      cases outcome <;> rfl
    · unfold I2CEn.write_and_stop I2CEn.write_impl
      rw [if_neg hlen]
      cases outcome <;> rfl
  · intro hgt
    exact ⟨by simp [I2CEn.read, I2CEn.read_impl, hgt],
      by simp [I2CEn.read_and_stop, I2CEn.read_impl, hgt],
      by simp [I2CEn.write, I2CEn.write_impl, hgt],
      by simp [I2CEn.write_and_stop, I2CEn.write_impl, hgt]⟩

/-- Witness for C7: a 255-byte buffer is accepted by `read` and a 256-byte
buffer panics in `write_and_stop`. -/
theorem i2c_len_boundary_witness :
    (I2CEn.read sampleMachine 16 255 80 sampleCr1 sampleCr2 sampleCcr
        Race3Outcome.dmaOk).isSome = true ∧
    I2CEn.write_and_stop sampleMachine 16 256 80 sampleCr1 sampleCr2
        sampleCcr Race3Outcome.dmaOk = none :=
  ⟨((i2c_len_boundary sampleMachine 16 255 80 sampleCr1 sampleCr2 sampleCcr
      Race3Outcome.dmaOk).1 (by decide)).1,
    ((i2c_len_boundary sampleMachine 16 256 80 sampleCr1 sampleCr2
      sampleCcr Race3Outcome.dmaOk).2 (by decide)).2.2.2⟩

/-- C8: the control-register-2 value a successful call leaves stored has the
autoend bit set exactly through the and-stop entry points; in all four entry
points it carries the byte count equal to the buffer length, the direction
bit set for read and clear for write, and the START bit set. -/
theorem i2c_cr2_autoend_semantics (st : I2CDmaMachine)
    (bufPtr bufLen slave_addr : Nat) (cr1v : I2CCr1Val) (cr2v : I2CCr2Val)
    (d : DmaCcrVal) (outcome : Race3Outcome) (st' : I2CDmaMachine)
    (r : Except I2CDmaError Unit) :
    (I2CEn.read st bufPtr bufLen slave_addr cr1v cr2v d outcome =
        some (st', r) →
      st'.i2c_cr2.autoend = false ∧ st'.i2c_cr2.rd_wrn = true ∧
        st'.i2c_cr2.nbytes = bufLen ∧ st'.i2c_cr2.start = true) ∧
    (I2CEn.read_and_stop st bufPtr bufLen slave_addr cr1v cr2v d outcome =
        some (st', r) →
      st'.i2c_cr2.autoend = true ∧ st'.i2c_cr2.rd_wrn = true ∧
        st'.i2c_cr2.nbytes = bufLen ∧ st'.i2c_cr2.start = true) ∧
    (I2CEn.write st bufPtr bufLen slave_addr cr1v cr2v d outcome =
        some (st', r) →
      st'.i2c_cr2.autoend = false ∧ st'.i2c_cr2.rd_wrn = false ∧
        st'.i2c_cr2.nbytes = bufLen ∧ st'.i2c_cr2.start = true) ∧
    (I2CEn.write_and_stop st bufPtr bufLen slave_addr cr1v cr2v d outcome =
        some (st', r) →
      st'.i2c_cr2.autoend = true ∧ st'.i2c_cr2.rd_wrn = false ∧
        st'.i2c_cr2.nbytes = bufLen ∧ st'.i2c_cr2.start = true) := by
  by_cases hlen : bufLen > 255
  · refine ⟨fun h => ?_, fun h => ?_, fun h => ?_, fun h => ?_⟩ <;>
      simp [I2CEn.read, I2CEn.read_and_stop, I2CEn.write,
        I2CEn.write_and_stop, I2CEn.read_impl, I2CEn.write_impl, hlen] at h
  · have hmod : bufLen % 2 ^ 32 = bufLen :=
      Nat.mod_eq_of_lt (by omega)
    refine ⟨fun h => ?_, fun h => ?_, fun h => ?_, fun h => ?_⟩
    · rw [I2CEn.read, I2CEn.read_impl, if_neg hlen] at h
      cases outcome <;>
        (simp only [Option.some.injEq, Prod.mk.injEq] at h
         rw [← h.1]
         exact ⟨rfl, rfl, hmod, rfl⟩)
    · rw [I2CEn.read_and_stop, I2CEn.read_impl, if_neg hlen] at h
      cases outcome <;>
        (simp only [Option.some.injEq, Prod.mk.injEq] at h
         rw [← h.1]
         exact ⟨rfl, rfl, hmod, rfl⟩)
    · rw [I2CEn.write, I2CEn.write_impl, if_neg hlen] at h
      cases outcome <;>
        (simp only [Option.some.injEq, Prod.mk.injEq] at h
         rw [← h.1]
         exact ⟨rfl, rfl, hmod, rfl⟩)
    · rw [I2CEn.write_and_stop, I2CEn.write_impl, if_neg hlen] at h
      cases outcome <;>
        (simp only [Option.some.injEq, Prod.mk.injEq] at h
         rw [← h.1]
         exact ⟨rfl, rfl, hmod, rfl⟩)

/-- Witness for C8: the concrete 4-byte read-and-stop stores CR2 with
autoend set, direction read, byte count 4, START set. -/
theorem i2c_cr2_autoend_semantics_witness :
    sampleAfterRxBreak.i2c_cr2.autoend = true ∧
    sampleAfterRxBreak.i2c_cr2.rd_wrn = true ∧
    sampleAfterRxBreak.i2c_cr2.nbytes = 4 ∧
    sampleAfterRxBreak.i2c_cr2.start = true :=
  (i2c_cr2_autoend_semantics sampleMachine 16 4 80 sampleCr1 sampleCr2
    sampleCcr (Race3Outcome.brk I2CBreak.Nack) sampleAfterRxBreak
    (Except.error (I2CDmaError.I2CBreak I2CBreak.Nack))).2.1 rfl

/-- C10: the SADD field written by `set_i2c_cr2` is
`slave_addr * 2 mod 256` — the u8 left shift happens before widening to
u32 — so every address below 128 is written as exactly twice the address,
while for addresses of 128 and above the most significant bit is silently
discarded. -/
theorem i2c_sadd_u8_shift (val : I2CCr2Val) (slave_addr : Nat)
    (autoend write : Bool) (nbytes : Nat) :
    (I2CEn.set_i2c_cr2 val slave_addr autoend nbytes write).sadd =
      slave_addr * 2 % 256 ∧
    (slave_addr < 128 →
      (I2CEn.set_i2c_cr2 val slave_addr autoend nbytes write).sadd =
        2 * slave_addr) ∧
    (128 ≤ slave_addr → slave_addr < 256 →
      (I2CEn.set_i2c_cr2 val slave_addr autoend nbytes write).sadd =
        2 * slave_addr - 256) := by
  refine ⟨rfl, fun h => ?_, fun h1 h2 => ?_⟩ <;>
    simp only [I2CEn.set_i2c_cr2] <;> omega

/-- Witness for C10: address 80 is written as 160; address 200 is written
as 144, not 400. -/
theorem i2c_sadd_u8_shift_witness :
    (I2CEn.set_i2c_cr2 sampleCr2 80 true 4 false).sadd = 2 * 80 ∧
    (I2CEn.set_i2c_cr2 sampleCr2 200 true 4 false).sadd = 2 * 200 - 256 :=
  ⟨(i2c_sadd_u8_shift sampleCr2 80 true false 4).2.1 (by decide),
    (i2c_sadd_u8_shift sampleCr2 200 true false 4).2.2 (by decide)
      (by decide)⟩

end DroneStm32
